import Mathlib

/-!
Verification of the AI file sorter (src/main.py).

The program scans a downloads directory, extracts text from each file
(dispatching on the file extension, with OCR fallbacks), classifies the
text with a zero-shot classifier over a fixed label list, moves the file
into a category-named folder and appends a row to a CSV audit log.

External capabilities (the zero-shot classification pipeline, the OCR
reader, the PDF and docx readers, the filesystem) are modelled as oracle
functions; a fallible call is an `Except Unit` value whose `.error ()`
models the call raising a Python exception.  All control flow, joining,
truncation and fallback logic is translated directly from the source.
-/

/-- Python `s.strip()`: drop whitespace from both ends.  Implemented on the
character list so that it evaluates by kernel reduction. -/
def pyStrip (s : String) : String :=
  String.mk (((s.data.dropWhile Char.isWhitespace).reverse.dropWhile
    Char.isWhitespace).reverse)

/-- Python `s[:n]` on a `str`: the first `n` characters. -/
def pyTake (s : String) (n : Nat) : String :=
  String.mk (s.data.take n)

/-- Python `s.lower()`: lower-case every character.  Implemented on the
character list so that it evaluates by kernel reduction. -/
def pyLower (s : String) : String :=
  String.mk (s.data.map Char.toLower)

/-- src/main.py line 20.  Python juxtaposes the adjacent string literals
`"IT" "IT/Jens"` into the single element `"ITIT/Jens"`; the Lean `++`
reproduces that concatenation. -/
def CATEGORIES : List String :=
  ["IT" ++ "IT/Jens", "Math", "History", "Coding", "Finacial Literacy",
   "College Prep", "English", "Other"]

/-- The zero-shot classification pipeline (line 23): given a text and the
candidate label list it returns the ranked label list (`result['labels']`),
or raises (`.error ()`). -/
def Classifier : Type := String → List String → Except Unit (List String)

/-- src/main.py lines 84-86, `classify_text`: the classifier is called on
`text[:1000]` with `CATEGORIES`, and `result['labels'][0]` is returned.
Indexing `[0]` into an empty ranking raises (IndexError), hence `.error ()`
in that case; an exception from the pipeline itself propagates. -/
def classify_text (cl : Classifier) (text : String) : Except Unit String :=
  match cl (pyTake text 1000) CATEGORIES with
  | .error e => .error e
  | .ok [] => .error ()
  | .ok (l :: _) => .ok l

/-- Which tier of the fallback controller produced the final category. -/
inductive Tier : Type where
  | content
  | filename
  | defaultTier
deriving DecidableEq

/-- src/main.py lines 116-125: the `category` variable after the content
tier.  `none` models Python `None` (text was empty after strip, or the
classification call raised); `some c` models a successful assignment. -/
def content_tier (cl : Classifier) (text : String) : Option String :=
  if pyStrip text = "" then none
  else
    match classify_text cl text with
    | .ok c => some c
    | .error _ => none

/-- src/main.py lines 128-135: the filename-fallback block.  On success the
stem's top label is assigned; if the call raises, `category = "Other"`. -/
def filename_tier (cl : Classifier) (stem : String) : String × Tier :=
  match classify_text cl stem with
  | .ok c => (c, Tier.filename)
  | .error _ => ("Other", Tier.defaultTier)

/-- src/main.py lines 116-135: the whole fallback controller for one file.
The guard `if not category:` is Python falsiness: the fallback block runs
when `category` is `None` or the empty string. -/
def decide_category (cl : Classifier) (text stem : String) : String × Tier :=
  match content_tier cl text with
  | some c => if c = "" then filename_tier cl stem else (c, Tier.content)
  | none => filename_tier cl stem

/-- Every label in `CATEGORIES` is a non-empty string (so a label returned
from the candidate list is never Python-falsy). -/
theorem mem_CATEGORIES_ne_nil {l : String} (h : l ∈ CATEGORIES) : l ≠ "" := by
  simp only [CATEGORIES, List.mem_cons, List.not_mem_nil, or_false] at h
  rcases h with h | h | h | h | h | h | h | h <;> subst h <;> decide

/-- C9: the label list has exactly 8 labels; adjacent-literal concatenation
makes its first element `"ITIT/Jens"`, so no label `"IT"` exists; it contains
the misspelt `"Finacial Literacy"` and not `"Financial Literacy"`; the labels
are pairwise distinct and the default label `"Other"` is present. -/
theorem categories_invariant :
    CATEGORIES.length = 8 ∧
    CATEGORIES.head? = some "ITIT/Jens" ∧
    "IT" ∉ CATEGORIES ∧
    "Finacial Literacy" ∈ CATEGORIES ∧
    "Financial Literacy" ∉ CATEGORIES ∧
    CATEGORIES.Nodup ∧
    "Other" ∈ CATEGORIES := by
  decide

/-- C1: if the extracted text is non-empty after trimming and the content
classification call succeeds with top label `l` (a label drawn from the
candidate list, as the pipeline guarantees), then the assigned category is
`l` and the filename tier is not invoked: the result is tagged as coming
from the content tier. -/
theorem content_tier_final (cl : Classifier) (text stem l : String)
    (htext : pyStrip text ≠ "") (hok : classify_text cl text = .ok l)
    (hmem : l ∈ CATEGORIES) :
    decide_category cl text stem = (l, Tier.content) := by
  have hne : l ≠ "" := mem_CATEGORIES_ne_nil hmem
  simp [decide_category, content_tier, htext, hok, hne]

/-- C1 witness. -/
theorem content_tier_final_witness :
    decide_category (fun _ _ => .ok ["Math", "Other"]) "algebra notes" "f"
      = ("Math", Tier.content) :=
  content_tier_final (fun _ _ => .ok ["Math", "Other"]) "algebra notes" "f"
    "Math" (by decide) rfl (by decide)

/-- C2: assuming the classifier only returns labels from the candidate list,
the filename tier runs exactly when the content tier did not run (text empty
after trimming) or the content classification call raised; and when it runs
and the call on the stem succeeds with top label `l`, the assigned category
is `l`, tagged as coming from the filename tier. -/
theorem filename_tier_engages_iff (cl : Classifier) (text stem l : String)
    (hgood : ∀ t c, classify_text cl t = .ok c → c ∈ CATEGORIES)
    (hstem : classify_text cl stem = .ok l) :
    ((decide_category cl text stem).2 ≠ Tier.content ↔
      (pyStrip text = "" ∨ classify_text cl text = .error ())) ∧
    ((pyStrip text = "" ∨ classify_text cl text = .error ()) →
      decide_category cl text stem = (l, Tier.filename)) := by
  have hfall : filename_tier cl stem = (l, Tier.filename) := by
    simp [filename_tier, hstem]
  by_cases htext : pyStrip text = ""
  · simp [decide_category, content_tier, htext, hfall]
  · constructor
    · constructor
      · intro hne
        match hcall : classify_text cl text with
        | .error () => exact Or.inr rfl
        | .ok c =>
          exfalso
          have hc : c ≠ "" := mem_CATEGORIES_ne_nil (hgood text c hcall)
          simp [decide_category, content_tier, htext, hcall, hc] at hne
      · intro h
        rcases h with h | h
        · exact absurd h htext
        · simp [decide_category, content_tier, htext, h, hfall]
    · intro h
      rcases h with h | h
      · exact absurd h htext
      · simp [decide_category, content_tier, htext, h, hfall]

/-- C2 witness: an empty text forces the filename tier, which succeeds. -/
theorem filename_tier_engages_iff_witness :
    ((decide_category (fun _ _ => .ok ["Math", "Other"]) "" "notes").2 ≠ Tier.content ↔
      (pyStrip "" = "" ∨
        classify_text (fun _ _ => .ok ["Math", "Other"]) "" = .error ())) ∧
    ((pyStrip "" = "" ∨
        classify_text (fun _ _ => .ok ["Math", "Other"]) "" = .error ()) →
      decide_category (fun _ _ => .ok ["Math", "Other"]) "" "notes"
        = ("Math", Tier.filename)) :=
  filename_tier_engages_iff (fun _ _ => .ok ["Math", "Other"]) "" "notes" "Math"
    (by
      intro t c h
      simp only [classify_text] at h
      cases h
      decide)
    rfl

/-- C3: if both the content-tier and the filename-tier classification calls
raise, the assigned category is the fixed default label `"Other"`; the
controller is a total function, so this path assigns exactly one category
and cannot itself fail. -/
theorem default_tier_other (cl : Classifier) (text stem : String)
    (herr1 : classify_text cl text = .error ())
    (herr2 : classify_text cl stem = .error ()) :
    decide_category cl text stem = ("Other", Tier.defaultTier) := by
  by_cases htext : pyStrip text = "" <;>
    simp [decide_category, content_tier, filename_tier, htext, herr1, herr2]

/-- C3 witness: an always-raising classifier yields `"Other"`. -/
theorem default_tier_other_witness :
    decide_category (fun _ _ => .error ()) "some text" "stem"
      = ("Other", Tier.defaultTier) :=
  default_tier_other (fun _ _ => .error ()) "some text" "stem" rfl rfl

/-- C6: the classifier is invoked on exactly the first 1000 characters of the
input text, so two texts agreeing on that prefix produce the same call and
the same result; on success the result is the top-ranked label. -/
theorem classify_truncates_input (cl : Classifier) (t1 t2 l : String)
    (ls : List String) (hpre : pyTake t1 1000 = pyTake t2 1000)
    (hok : cl (pyTake t1 1000) CATEGORIES = .ok (l :: ls)) :
    classify_text cl t1 = .ok l ∧ classify_text cl t2 = .ok l := by
  constructor
  · simp [classify_text, hok]
  · simp only [classify_text, ← hpre, hok]

/-- C6 witness: two 1001-character texts that differ only in their final
character agree on the 1000-character prefix and classify identically. -/
theorem classify_truncates_input_witness :
    classify_text (fun _ _ => .ok ["History"])
        (String.mk (List.replicate 1000 'a' ++ ['X'])) = .ok "History" ∧
    classify_text (fun _ _ => .ok ["History"])
        (String.mk (List.replicate 1000 'a' ++ ['Y'])) = .ok "History" :=
  classify_truncates_input (fun _ _ => .ok ["History"])
    (String.mk (List.replicate 1000 'a' ++ ['X']))
    (String.mk (List.replicate 1000 'a' ++ ['Y']))
    "History" []
    (by
      have h : ∀ c : Char,
          (List.replicate 1000 'a' ++ [c]).take 1000 = List.replicate 1000 'a' := by
        intro c
        have h2 := List.take_left (List.replicate 1000 'a') [c]
        rwa [List.length_replicate] at h2
      simp only [pyTake, h])
    rfl

/-- One file of the directory snapshot, carrying the `pathlib.Path`
accessors the source uses: `str(file_path)`, `.name`, `.stem`, `.suffix`. -/
structure File : Type where
  path : String
  name : String
  stem : String
  suffix : String
deriving DecidableEq

/-- The external read/parse/OCR capabilities consumed by text extraction.
Each fallible call is an oracle keyed by the file path; `.error ()` models
the call raising. -/
structure ExtractEnv : Type where
  /-- `file_path.read_text(errors='ignore')` (line 53); can still raise. -/
  read_text : String → Except Unit String
  /-- `fitz.open` plus `page.get_text()` for each page in order (line 57). -/
  pdf_pages : String → Except Unit (List String)
  /-- `Document(file_path).paragraphs` texts in document order (line 65). -/
  docx_paragraphs : String → Except Unit (List String)
  /-- `not file_path.exists() or file_path.stat().st_size == 0` (line 69). -/
  image_missing_or_empty : String → Bool
  /-- `reader.readtext(str(file_path), detail=0)` on an image (line 72). -/
  readtext_image : String → Except Unit (List String)
  /-- For `ocr_pdf`: per page, render at 300 DPI and run
  `reader.readtext(img_np, detail=0)`; the ordered fragment lists for all
  pages (lines 35-42), or `.error ()` if anything in the loop raises. -/
  ocr_pages : String → Except Unit (List (List String))

/-- src/main.py lines 31-47, `ocr_pdf`: per page the OCR fragments are
joined with `"\n"`, the pages are joined with `"\n\n"`, and any exception
is caught and yields `""`. -/
def ocr_pdf (env : ExtractEnv) (path : String) : String :=
  match env.ocr_pages path with
  | .ok pages =>
      String.intercalate "\n\n" (pages.map (fun frags => String.intercalate "\n" frags))
  | .error _ => ""

/-- The extensions handled by `extract_text_from_file` (lines 52-73). -/
def SUPPORTED_EXTS : List String :=
  [".txt", ".pdf", ".docx", ".png", ".jpg", ".jpeg", ".gif", ".bmp"]

/-- src/main.py lines 49-81, `extract_text_from_file`: dispatch on
`file_path.suffix.lower()`; `.txt` reads raw text, `.pdf` joins per-page
text with `"\n"` and falls back to `ocr_pdf` when the result strips to
empty, `.docx` joins paragraph texts with `"\n"`, image extensions OCR the
file (short-circuiting to `""` when it is missing or zero-length), any
other extension yields `""`; the surrounding `try` turns any raised
exception into `""`. -/
def extract_text_from_file (env : ExtractEnv) (f : File) : String :=
  let ext := pyLower f.suffix
  let r : Except Unit String :=
    if ext = ".txt" then env.read_text f.path
    else if ext = ".pdf" then
      match env.pdf_pages f.path with
      | .error e => .error e
      | .ok pages =>
          let text := String.intercalate "\n" pages
          if pyStrip text = "" then .ok (ocr_pdf env f.path) else .ok text
    else if ext = ".docx" then
      match env.docx_paragraphs f.path with
      | .error e => .error e
      | .ok paras => .ok (String.intercalate "\n" paras)
    else if ext ∈ [".png", ".jpg", ".jpeg", ".gif", ".bmp"] then
      if env.image_missing_or_empty f.path then .ok ""
      else
        match env.readtext_image f.path with
        | .error e => .error e
        | .ok frags => .ok (String.intercalate "\n" frags)
    else .ok ""
  match r with
  | .ok t => t
  | .error _ => ""

/-- All fallible read/parse/OCR oracles raise on every path. -/
def FailsEverywhere (env : ExtractEnv) : Prop :=
  (∀ p, env.read_text p = .error ()) ∧
  (∀ p, env.pdf_pages p = .error ()) ∧
  (∀ p, env.docx_paragraphs p = .error ()) ∧
  (∀ p, env.readtext_image p = .error ()) ∧
  (∀ p, env.ocr_pages p = .error ())

/-- An environment in which every fallible capability raises. -/
def envAllFail : ExtractEnv where
  read_text := fun _ => .error ()
  pdf_pages := fun _ => .error ()
  docx_paragraphs := fun _ => .error ()
  image_missing_or_empty := fun _ => false
  readtext_image := fun _ => .error ()
  ocr_pages := fun _ => .error ()

/-- C5: extraction is total.  A file whose lower-cased extension is not one
of the supported formats yields `""` without raising, and even when every
underlying read/parse/OCR capability raises, the result is still `""`:
extraction never aborts the run. -/
theorem extraction_total (env : ExtractEnv) (f : File)
    (h : pyLower f.suffix ∉ SUPPORTED_EXTS ∨ FailsEverywhere env) :
    extract_text_from_file env f = "" := by
  rcases h with h | ⟨h1, h2, h3, h4, h5⟩
  · simp only [SUPPORTED_EXTS, List.mem_cons, List.not_mem_nil, or_false,
      not_or] at h
    obtain ⟨n1, n2, n3, n4, n5, n6, n7, n8⟩ := h
    simp [extract_text_from_file, n1, n2, n3, n4, n5, n6, n7, n8]
  · unfold extract_text_from_file
    by_cases e1 : pyLower f.suffix = ".txt"
    · simp [e1, h1]
    · by_cases e2 : pyLower f.suffix = ".pdf"
      · simp [e1, e2, h2]
      · by_cases e3 : pyLower f.suffix = ".docx"
        · simp [e1, e2, e3, h3]
        · by_cases e4 : pyLower f.suffix ∈ [".png", ".jpg", ".jpeg", ".gif", ".bmp"]
          · by_cases e5 : env.image_missing_or_empty f.path
            · simp [e1, e2, e3, e4, e5]
            · simp [e1, e2, e3, e4, e5, h4]
          · simp [e1, e2, e3, e4]

/-- C5 witness: extraction of a `.zip` file under the all-raising
environment yields the empty string. -/
theorem extraction_total_witness :
    extract_text_from_file envAllFail
      { path := "/home/u/Downloads/a.zip", name := "a.zip", stem := "a",
        suffix := ".zip" } = "" :=
  extraction_total envAllFail
    { path := "/home/u/Downloads/a.zip", name := "a.zip", stem := "a",
      suffix := ".zip" }
    (Or.inr ⟨fun _ => rfl, fun _ => rfl, fun _ => rfl, fun _ => rfl, fun _ => rfl⟩)

/-- A concrete OCR environment whose single PDF page yields the two ordered
fragments `"a"` and `"b"`. -/
def envTwoFragments : ExtractEnv where
  read_text := fun _ => .error ()
  pdf_pages := fun _ => .error ()
  docx_paragraphs := fun _ => .error ()
  image_missing_or_empty := fun _ => false
  readtext_image := fun _ => .error ()
  ocr_pages := fun _ => .ok [["a", "b"]]

/-- C8 counterexample: the claim says the fragments of one page are joined
with blank lines, which would give `"a\n\nb"` for a page whose fragments
are `"a"` and `"b"`; the code joins the fragments of a page with a single
newline, producing `"a\nb"`. -/
theorem ocr_fragment_join_counterexample :
    ocr_pdf envTwoFragments "doc.pdf" = "a\nb" ∧
    ocr_pdf envTwoFragments "doc.pdf" ≠ "a\n\nb" := by
  constructor <;> decide

/-- C8 (amended): in the PDF-OCR path the ordered fragments of one page are
joined with single newlines, the per-page results are joined with
paragraph-separating blank lines (`"\n\n"`), list order — the reading
order — is preserved by both joins, and an OCR failure yields `""`. -/
theorem ocr_join_amended (env env2 : ExtractEnv) (path path2 : String)
    (pages : List (List String))
    (hok : env.ocr_pages path = .ok pages)
    (herr : env2.ocr_pages path2 = .error ()) :
    ocr_pdf env path =
      String.intercalate "\n\n" (pages.map (fun frags => String.intercalate "\n" frags)) ∧
    ocr_pdf env2 path2 = "" := by
  constructor
  · simp [ocr_pdf, hok]
  · simp [ocr_pdf, herr]

/-- C8 amended witness: two pages of two fragments each, and an always-
failing OCR environment. -/
theorem ocr_join_amended_witness :
    ocr_pdf
      { envTwoFragments with ocr_pages := fun _ => .ok [["a", "b"], ["c", "d"]] }
      "doc.pdf"
      = String.intercalate "\n\n"
          ([["a", "b"], ["c", "d"]].map (fun frags => String.intercalate "\n" frags)) ∧
    ocr_pdf envAllFail "doc.pdf" = "" :=
  ocr_join_amended
    { envTwoFragments with ocr_pages := fun _ => .ok [["a", "b"], ["c", "d"]] }
    envAllFail "doc.pdf" "doc.pdf" [["a", "b"], ["c", "d"]] rfl rfl

/-- One row of the CSV audit log, as written by `log_action`
(src/main.py lines 103-106): `[datetime.now().isoformat(), file_name,
category, new_path]`. -/
structure LogEntry : Type where
  timestamp : String
  file_name : String
  category : String
  new_path : String
deriving DecidableEq

/-- Observable filesystem state of a run: which files have been relocated
(original name paired with the destination they were moved to), and the
audit-log rows appended so far. -/
structure RunState : Type where
  moved : List (String × String)
  log : List LogEntry
deriving DecidableEq

/-- The external effects consumed by `process_downloads`: the classifier,
the `shutil.move` primitive (`true` = the move succeeded, `false` = it
raised and was caught in `move_file`), the wall clock, and the audit-log
append, which may itself raise (there is no `try` around `log_action`).
The clock and the append are keyed by the position of the file in the
directory snapshot. -/
structure RunEnv : Type where
  eenv : ExtractEnv
  cl : Classifier
  fsMove : String → String → Bool
  clock : Nat → String
  logAppend : Nat → Except Unit Unit

/-- src/main.py lines 89-100, `move_file`: the destination folder is
`DOCUMENTS / category`, the target is `destination / file_path.name`
(rendered here by `/`-concatenation on path strings), and `shutil.move`
either succeeds — returning `str(target)` — or raises, in which case the
exception is caught and `None` is returned. -/
def move_file (fsMove : String → String → Bool) (documents : String)
    (f : File) (category : String) : Option String :=
  let target := documents ++ "/" ++ category ++ "/" ++ f.name
  if fsMove f.path target then some target else none

/-- src/main.py lines 109-141, `process_downloads`, over the snapshot of
regular files in the downloads directory.  For each file: extract text,
run the fallback controller, call `move_file`, and — only when a
destination was returned — append the audit row.  The append has no
exception handling, so if it raises the run aborts: `.error st` carries
the state at the abort, with the file already moved and its row missing,
and the remaining files untouched. -/
def process_downloads (env : RunEnv) (documents : String) :
    Nat → List File → RunState → Except RunState RunState
  | _, [], st => .ok st
  | i, f :: fs, st =>
    let text := extract_text_from_file env.eenv f
    let category := (decide_category env.cl text f.stem).1
    match move_file env.fsMove documents f category with
    | some newPath =>
      match env.logAppend i with
      | .ok _ =>
          process_downloads env documents (i + 1) fs
            ⟨st.moved ++ [(f.name, newPath)],
             st.log ++ [⟨env.clock i, f.name, category, newPath⟩]⟩
      | .error _ => .error ⟨st.moved ++ [(f.name, newPath)], st.log⟩
    | none => process_downloads env documents (i + 1) fs st

/-- C4: per processed file (log append succeeding), an audit row is
appended exactly when `move_file` returned a destination, the row's
recorded `new_path` is that very destination — the path the file was
actually moved to — and on move failure the log is unchanged and the run
continues with the remaining files. -/
theorem log_iff_move_succeeded (env : RunEnv) (documents : String) (i : Nat)
    (f : File) (fs : List File) (st : RunState)
    (hlog : env.logAppend i = .ok ()) :
    process_downloads env documents i (f :: fs) st =
      (match move_file env.fsMove documents f
          ((decide_category env.cl (extract_text_from_file env.eenv f) f.stem).1) with
       | some newPath =>
          process_downloads env documents (i + 1) fs
            ⟨st.moved ++ [(f.name, newPath)],
             st.log ++ [⟨env.clock i, f.name,
               (decide_category env.cl (extract_text_from_file env.eenv f) f.stem).1,
               newPath⟩]⟩
       | none => process_downloads env documents (i + 1) fs st) := by
  rw [process_downloads]
  cases hmv : move_file env.fsMove documents f
      ((decide_category env.cl (extract_text_from_file env.eenv f) f.stem).1) with
  | none => simp
  | some newPath => simp [hlog]

/-- A concrete run environment: extraction always fails (so the filename
tier classifies), the classifier always ranks `"Math"` first, every move
succeeds, and the audit-log append never raises. -/
def envRunOk : RunEnv where
  eenv := envAllFail
  cl := fun _ _ => .ok ["Math", "Other"]
  fsMove := fun _ _ => true
  clock := fun _ => "2026-10-12T00:00:00"
  logAppend := fun _ => .ok ()

/-- A file of the directory snapshot used by the run witnesses. -/
def fileA : File where
  path := "/home/u/Downloads/a.zip"
  name := "a.zip"
  stem := "a"
  suffix := ".zip"

/-- C4 witness. -/
theorem log_iff_move_succeeded_witness :
    process_downloads envRunOk "/home/u/Documents" 0 [fileA] ⟨[], []⟩ =
      (match move_file envRunOk.fsMove "/home/u/Documents" fileA
          ((decide_category envRunOk.cl
            (extract_text_from_file envRunOk.eenv fileA) fileA.stem).1) with
       | some newPath =>
          process_downloads envRunOk "/home/u/Documents" (0 + 1) []
            ⟨[] ++ [(fileA.name, newPath)],
             [] ++ [⟨envRunOk.clock 0, fileA.name,
               (decide_category envRunOk.cl
                 (extract_text_from_file envRunOk.eenv fileA) fileA.stem).1,
               newPath⟩]⟩
       | none => process_downloads envRunOk "/home/u/Documents" (0 + 1) [] ⟨[], []⟩) :=
  log_iff_move_succeeded envRunOk "/home/u/Documents" 0 fileA [] ⟨[], []⟩ rfl

/-- C10: the move and the log append are not atomic.  If the move of a
file succeeds and the audit-log append then raises, the exception
propagates out of the processing loop: the run aborts in a state where
the file is relocated but has no log row, and no remaining file of the
snapshot is processed (the result does not depend on `fs`). -/
theorem log_failure_aborts_run (env : RunEnv) (documents : String) (i : Nat)
    (f : File) (fs : List File) (st : RunState) (newPath : String)
    (hmv : move_file env.fsMove documents f
      ((decide_category env.cl (extract_text_from_file env.eenv f) f.stem).1)
      = some newPath)
    (hlog : env.logAppend i = .error ()) :
    process_downloads env documents i (f :: fs) st =
      .error ⟨st.moved ++ [(f.name, newPath)], st.log⟩ := by
  rw [process_downloads]
  simp [hmv, hlog]

/-- The environment of `envRunOk` except that the audit-log append always
raises. -/
def envRunLogFail : RunEnv :=
  { envRunOk with logAppend := fun _ => .error () }

/-- C10 witness: with a failing log append, a two-file snapshot aborts
after the first file's move, the second file untouched. -/
theorem log_failure_aborts_run_witness :
    process_downloads envRunLogFail "/home/u/Documents" 0
        [fileA, { fileA with name := "b.zip", stem := "b" }] ⟨[], []⟩ =
      .error ⟨[] ++ [(fileA.name, "/home/u/Documents/Math/a.zip")], []⟩ :=
  log_failure_aborts_run envRunLogFail "/home/u/Documents" 0 fileA
    [{ fileA with name := "b.zip", stem := "b" }] ⟨[], []⟩
    "/home/u/Documents/Math/a.zip" rfl rfl

/-- The audit-log header row (src/main.py line 148). -/
def LOG_HEADER : List String :=
  ["timestamp", "file_name", "category", "new_path"]

/-- src/main.py lines 145-148, the module-level log initialization: the
log file is modelled as `none` when it does not exist and `some rows`
when it does; the header row is written only when the file is absent. -/
def init_log : Option (List (List String)) → Option (List (List String))
  | none => some [LOG_HEADER]
  | some rows => some rows

/-- A run's worth of `log_action` appends (lines 103-106) on the CSV rows:
each call appends exactly one row at the end. -/
def append_rows (rows : List (List String)) (es : List (List String)) :
    List (List String) :=
  es.foldl (fun r e => r ++ [e]) rows

theorem append_rows_eq (rows es : List (List String)) :
    append_rows rows es = rows ++ es := by
  induction es generalizing rows with
  | nil => simp [append_rows]
  | cons e es ih =>
      simp only [append_rows, List.foldl_cons] at ih ⊢
      rw [ih (rows ++ [e]), List.append_assoc]
      rfl

/-- C7: log initialization is idempotent — running it on an already
initialized location changes nothing, so starting the process twice on an
empty location yields exactly one header row; and the header precedes any
data rows: a fresh initialization followed by any sequence of `log_action`
appends has the header as its first row, followed by exactly the appended
data rows. -/
theorem log_init_idempotent :
    (∀ s, init_log (init_log s) = init_log s) ∧
    init_log (init_log none) = some [LOG_HEADER] ∧
    (∀ es, append_rows ((init_log none).getD []) es = LOG_HEADER :: es) := by
  refine ⟨fun s => ?_, rfl, fun es => ?_⟩
  · cases s <;> rfl
  · rw [show (init_log none).getD [] = [LOG_HEADER] from rfl, append_rows_eq]
    rfl
